import Mathlib

/-!
Verification of `pkg/metricsstore/metricsstore.go`.

The module owns four prometheus instruments (a counter for K8s API events, a
gauge for connected proxies, a counter for sidecar injections, and a labelled
histogram for injection request time), a registry, and a scrape handler.
The instruments, their metadata and the `Start`/`Stop`/`Handler` operations are
translated from the source.  The behaviour of the prometheus registry and of
the promhttp scrape handler lives in the prometheus client library, which is
not part of this repository; those parts are modelled from the spec, and each
such definition says so in its doc comment.

Counter, gauge and histogram observation values are modelled as rationals.
A histogram-vector value is the list of its recorded observations, each tagged
with the value of its single label ("success"); a bucket's cumulative count is
the number of recorded observations at or below the bucket boundary.
The registry is the list of fully-qualified names currently registered.
-/

namespace Metricsstore

/-- The root namespace for all the metrics emitted (source constant
`metricsRootNamespace`). -/
def metricsRootNamespace : String := "osm"

/-- Identity metadata of a metric instrument: namespace, subsystem, metric
name and help string (source: the `CounterOpts`/`GaugeOpts`/`HistogramOpts`
literals in `init`). -/
structure MetricOpts where
  nspace : String
  subsystem : String
  name : String
  help : String
deriving DecidableEq

/-- Modelled from the spec: the fully-qualified metric name joins namespace,
subsystem and metric name with underscores (all three are nonempty for every
instrument of this module).  The prometheus function that computes it is not
under src/. -/
def MetricOpts.fqName (o : MetricOpts) : String :=
  o.nspace ++ "_" ++ o.subsystem ++ "_" ++ o.name

/-- Metadata of `K8sAPIEventCounter` (source: `init`). -/
def k8sAPIEventCounterOpts : MetricOpts :=
  { nspace := metricsRootNamespace
    subsystem := "k8s"
    name := "api_event_count"
    help := "represents the number of events received from the Kubernetes API Server" }

/-- Metadata of `ProxyConnectCount` (source: `init`). -/
def proxyConnectCountOpts : MetricOpts :=
  { nspace := metricsRootNamespace
    subsystem := "proxy"
    name := "connect_count"
    help := "represents the number of proxies connected to OSM controller" }

/-- Metadata of `InjectorSidecarCount` (source: `init`). -/
def injectorSidecarCountOpts : MetricOpts :=
  { nspace := metricsRootNamespace
    subsystem := "injector"
    name := "injector_sidecar_count"
    help := "Counts the number of injector webhooks dealt with over time" }

/-- Metadata of `InjectorRqTime` (source: `init`). -/
def injectorRqTimeOpts : MetricOpts :=
  { nspace := metricsRootNamespace
    subsystem := "injector"
    name := "injector_rq_time"
    help := "Histogram for time taken to perform sidecar injection" }

/-- The declared bucket boundaries of `InjectorRqTime`
(source: `Buckets: []float64{.1, .25, .5, 1, 2.5, 5, 10, 20, 40}`). -/
def injectorRqTimeBuckets : List ℚ := [1/10, 1/4, 1/2, 1, 5/2, 5, 10, 20, 40]

/-- The label dimensions of `InjectorRqTime` (source: `[]string{"success"}`). -/
def injectorRqTimeLabels : List String := ["success"]

/-- State of a `MetricsStore`: the current values of the four instruments, the
registry (list of fully-qualified names currently registered), and the scrape
handler's self-instrumentation meta-counters.  Instrument value state is
modelled from the spec (the prometheus instrument internals are not under
src/): a counter and a gauge hold a scalar, the histogram vector holds its
recorded observations as (label value, observed value) pairs.  The
meta-counters are modelled from the spec: the handler returned by `Handler`
wraps the render step with its own request count and request duration;
the promhttp library is not under src/. -/
structure MetricsStore where
  K8sAPIEventCounter : ℚ
  ProxyConnectCount : ℚ
  InjectorSidecarCount : ℚ
  InjectorRqTime : List (String × ℚ)
  registry : List String
  metaRequestCount : ℕ
  metaRequestDurationSum : ℚ
deriving DecidableEq

/-- The default metrics store after the package `init` function ran: freshly
constructed instruments (zero values, no observations) and an empty registry
(source: `defaultMetricsStore` and `init`). -/
def defaultMetricsStore : MetricsStore :=
  { K8sAPIEventCounter := 0
    ProxyConnectCount := 0
    InjectorSidecarCount := 0
    InjectorRqTime := []
    registry := []
    metaRequestCount := 0
    metaRequestDurationSum := 0 }

/-- A registration error of the registry. -/
inductive RegError where
  | alreadyRegistered (fqName : String)
deriving DecidableEq

/-- Modelled from the spec: the registry rejects registering an instrument
whose identity (fully-qualified name) is already registered, and
`MustRegister` turns that rejection into a fatal error; otherwise the
instrument is added.  The prometheus registry is not under src/. -/
def mustRegister (fq : String) (reg : List String) : Except RegError (List String) :=
  if fq ∈ reg then Except.error (RegError.alreadyRegistered fq)
  else Except.ok (fq :: reg)

/-- Modelled from the spec: `Unregister` removes the instrument with the given
identity from the registry if present, returns whether removal occurred, and
never fails.  The prometheus registry is not under src/. -/
def unregister (fq : String) (reg : List String) : Bool × List String :=
  (decide (fq ∈ reg), reg.filter (fun n => decide (n ≠ fq)))

/-- `Start` registers the four instruments into the registry in source order;
any registration failure is fatal (source: `MetricsStore.Start`, which calls
`MustRegister` four times). -/
def MetricsStore.Start (ms : MetricsStore) : Except RegError MetricsStore :=
  match mustRegister k8sAPIEventCounterOpts.fqName ms.registry with
  | Except.error e => Except.error e
  | Except.ok r1 =>
    match mustRegister proxyConnectCountOpts.fqName r1 with
    | Except.error e => Except.error e
    | Except.ok r2 =>
      match mustRegister injectorSidecarCountOpts.fqName r2 with
      | Except.error e => Except.error e
      | Except.ok r3 =>
        match mustRegister injectorRqTimeOpts.fqName r3 with
        | Except.error e => Except.error e
        | Except.ok r4 => Except.ok { ms with registry := r4 }

/-- `Stop` unregisters the four instruments in source order; the boolean
result of each removal is discarded and no error is ever reported to the
caller (source: `MetricsStore.Stop`, which calls `Unregister` four times and
ignores the results). -/
def MetricsStore.Stop (ms : MetricsStore) : Except RegError MetricsStore :=
  let u1 := unregister k8sAPIEventCounterOpts.fqName ms.registry
  let u2 := unregister proxyConnectCountOpts.fqName u1.2
  let u3 := unregister injectorSidecarCountOpts.fqName u2.2
  let u4 := unregister injectorRqTimeOpts.fqName u3.2
  Except.ok { ms with registry := u4.2 }

/-- The scraped value of one instrument. -/
inductive MetricValue where
  | counter (v : ℚ)
  | gauge (v : ℚ)
  | histogram (obs : List (String × ℚ))
deriving DecidableEq

/-- The current value of the instrument of this store with the given
fully-qualified name, if the name is one of the four instruments. -/
def MetricsStore.sample (ms : MetricsStore) (fq : String) : Option MetricValue :=
  if fq = k8sAPIEventCounterOpts.fqName then
    some (MetricValue.counter ms.K8sAPIEventCounter)
  else if fq = proxyConnectCountOpts.fqName then
    some (MetricValue.gauge ms.ProxyConnectCount)
  else if fq = injectorSidecarCountOpts.fqName then
    some (MetricValue.counter ms.InjectorSidecarCount)
  else if fq = injectorRqTimeOpts.fqName then
    some (MetricValue.histogram ms.InjectorRqTime)
  else none

/-- Modelled from the spec: a scrape serialises the current value of every
registered instrument; the promhttp exposition code is not under src/. -/
def MetricsStore.render (ms : MetricsStore) : List (String × MetricValue) :=
  ms.registry.filterMap (fun fq => (ms.sample fq).map (fun v => (fq, v)))

/-- The metric names appearing in a scrape of this store. -/
def MetricsStore.scrapeNames (ms : MetricsStore) : List String :=
  ms.render.map Prod.fst

/-- The value reported for the given fully-qualified name by a scrape of this
store, if that name is scraped at all. -/
def MetricsStore.scrapeValue (ms : MetricsStore) (fq : String) : Option MetricValue :=
  ms.render.lookup fq

/-- Modelled from the spec: one invocation of the handler returned by
`Handler` renders the current value of every registered instrument and
updates only the handler's own meta-counters (request count and request
duration, `d` being this request's duration); the promhttp library is not
under src/. -/
def MetricsStore.serveScrape (ms : MetricsStore) (d : ℚ) :
    List (String × MetricValue) × MetricsStore :=
  (ms.render,
   { ms with
     metaRequestCount := ms.metaRequestCount + 1
     metaRequestDurationSum := ms.metaRequestDurationSum + d })

/-- Modelled from the spec: incrementing the K8s API event counter adds one
to its value (`Counter.Inc`; the prometheus instrument code is not under
src/). -/
def MetricsStore.incK8sAPIEventCounter (ms : MetricsStore) : MetricsStore :=
  { ms with K8sAPIEventCounter := ms.K8sAPIEventCounter + 1 }

/-- Modelled from the spec: setting the proxy connect gauge replaces its value
(`Gauge.Set`; the prometheus instrument code is not under src/). -/
def MetricsStore.setProxyConnectCount (ms : MetricsStore) (v : ℚ) : MetricsStore :=
  { ms with ProxyConnectCount := v }

/-- Modelled from the spec: observing a value on the injector request-time
histogram with a given "success" label value records that observation in the
corresponding label partition (`HistogramVec.WithLabelValues(...).Observe`;
the prometheus instrument code is not under src/). -/
def MetricsStore.observeInjectorRqTime (ms : MetricsStore) (success : String) (v : ℚ) :
    MetricsStore :=
  { ms with InjectorRqTime := (success, v) :: ms.InjectorRqTime }

/-- Cumulative count of a histogram bucket: the number of recorded
observations in the given label partition whose value is at most the bucket
boundary (modelled from the spec: a histogram records observation counts per
bucket boundary cumulatively). -/
def histCumCount (obs : List (String × ℚ)) (lbl : String) (b : ℚ) : ℕ :=
  (obs.filter (fun p => decide (p.1 = lbl ∧ p.2 ≤ b))).length

/-- A lifecycle operation of the store. -/
inductive LifecycleOp where
  | start
  | stop
deriving DecidableEq

/-- Run a sequence of lifecycle operations, propagating a fatal registration
error. -/
def runOps : List LifecycleOp → MetricsStore → Except RegError MetricsStore
  | [], ms => Except.ok ms
  | LifecycleOp.start :: ops, ms =>
    match ms.Start with
    | Except.ok s => runOps ops s
    | Except.error e => Except.error e
  | LifecycleOp.stop :: ops, ms =>
    match ms.Stop with
    | Except.ok s => runOps ops s
    | Except.error e => Except.error e

/-- The registry contents right after a successful `Start` from an empty
registry, in registration order (latest first). -/
def startedRegistry : List String :=
  [injectorRqTimeOpts.fqName, injectorSidecarCountOpts.fqName,
   proxyConnectCountOpts.fqName, k8sAPIEventCounterOpts.fqName]

/-- The default store after one successful `Start`. -/
def startedStore : MetricsStore :=
  { defaultMetricsStore with registry := startedRegistry }

/-! ### Helper lemmas -/

/-- The four fully-qualified instrument names are pairwise distinct. -/
theorem fqNames_pairwise_distinct :
    k8sAPIEventCounterOpts.fqName ≠ proxyConnectCountOpts.fqName ∧
    k8sAPIEventCounterOpts.fqName ≠ injectorSidecarCountOpts.fqName ∧
    k8sAPIEventCounterOpts.fqName ≠ injectorRqTimeOpts.fqName ∧
    proxyConnectCountOpts.fqName ≠ injectorSidecarCountOpts.fqName ∧
    proxyConnectCountOpts.fqName ≠ injectorRqTimeOpts.fqName ∧
    injectorSidecarCountOpts.fqName ≠ injectorRqTimeOpts.fqName := by
  decide

/-- Characterisation of a successful `Start`: it succeeds exactly when none of
the four identities is already registered, and then it prepends the four
identities to the registry, leaving every other field unchanged. -/
theorem Start_ok_iff (ms s : MetricsStore) :
    ms.Start = Except.ok s ↔
      (k8sAPIEventCounterOpts.fqName ∉ ms.registry ∧
       proxyConnectCountOpts.fqName ∉ ms.registry ∧
       injectorSidecarCountOpts.fqName ∉ ms.registry ∧
       injectorRqTimeOpts.fqName ∉ ms.registry) ∧
      s = { ms with registry :=
              injectorRqTimeOpts.fqName :: injectorSidecarCountOpts.fqName ::
              proxyConnectCountOpts.fqName :: k8sAPIEventCounterOpts.fqName ::
              ms.registry } := by
  obtain ⟨d1, d2, d3, d4, d5, d6⟩ := fqNames_pairwise_distinct
  by_cases h1 : k8sAPIEventCounterOpts.fqName ∈ ms.registry <;>
    by_cases h2 : proxyConnectCountOpts.fqName ∈ ms.registry <;>
      by_cases h3 : injectorSidecarCountOpts.fqName ∈ ms.registry <;>
        by_cases h4 : injectorRqTimeOpts.fqName ∈ ms.registry <;>
          simp [MetricsStore.Start, mustRegister, h1, h2, h3, h4,
            d1.symm, d2.symm, d3.symm, d4.symm, d5.symm, d6.symm, eq_comm]

/-- `Stop` always succeeds and only filters the four identities out of the
registry. -/
theorem Stop_eq (ms : MetricsStore) :
    ms.Stop = Except.ok { ms with registry :=
      ((((ms.registry.filter
            (fun n => decide (n ≠ k8sAPIEventCounterOpts.fqName))).filter
            (fun n => decide (n ≠ proxyConnectCountOpts.fqName))).filter
            (fun n => decide (n ≠ injectorSidecarCountOpts.fqName))).filter
            (fun n => decide (n ≠ injectorRqTimeOpts.fqName))) } := rfl

/-- After `Stop`, none of the four identities is registered. -/
theorem not_mem_stop_registry (ms s : MetricsStore) (h : ms.Stop = Except.ok s) :
    k8sAPIEventCounterOpts.fqName ∉ s.registry ∧
    proxyConnectCountOpts.fqName ∉ s.registry ∧
    injectorSidecarCountOpts.fqName ∉ s.registry ∧
    injectorRqTimeOpts.fqName ∉ s.registry := by
  rw [Stop_eq] at h
  obtain rfl := Except.ok.inj h
  refine ⟨?_, ?_, ?_, ?_⟩ <;> simp [List.mem_filter]

/-- `Start` changes only the registry. -/
theorem Start_preserves_values (ms s : MetricsStore) (h : ms.Start = Except.ok s) :
    s.K8sAPIEventCounter = ms.K8sAPIEventCounter ∧
    s.ProxyConnectCount = ms.ProxyConnectCount ∧
    s.InjectorSidecarCount = ms.InjectorSidecarCount ∧
    s.InjectorRqTime = ms.InjectorRqTime := by
  obtain ⟨-, rfl⟩ := (Start_ok_iff ms s).mp h
  exact ⟨rfl, rfl, rfl, rfl⟩

/-- `Stop` changes only the registry. -/
theorem Stop_preserves_values (ms s : MetricsStore) (h : ms.Stop = Except.ok s) :
    s.K8sAPIEventCounter = ms.K8sAPIEventCounter ∧
    s.ProxyConnectCount = ms.ProxyConnectCount ∧
    s.InjectorSidecarCount = ms.InjectorSidecarCount ∧
    s.InjectorRqTime = ms.InjectorRqTime := by
  rw [Stop_eq] at h
  obtain rfl := Except.ok.inj h
  exact ⟨rfl, rfl, rfl, rfl⟩

/-- The lookup of a rendered registry list reports the sample of the looked-up
name exactly when that name is in the list. -/
theorem lookup_renderList (ms : MetricsStore) (reg : List String) (fq : String) :
    (reg.filterMap (fun n => (ms.sample n).map (fun v => (n, v)))).lookup fq =
      if fq ∈ reg then ms.sample fq else none := by
  induction reg with
  | nil => simp
  | cons a t ih =>
    by_cases hfa : fq = a
    · subst hfa
      cases hs : ms.sample fq with
      | none => simp [List.filterMap_cons, hs, ih]
      | some v => simp [List.filterMap_cons, hs, List.lookup]
    · cases hs : ms.sample a with
      | none => simp [List.filterMap_cons, hs, ih, hfa]
      | some v =>
        have hba : (fq == a) = false := beq_eq_false_iff_ne.mpr hfa
        simp [List.filterMap_cons, hs, List.lookup, hba, ih, hfa]

/-- A scrape reports exactly the sample of each registered name. -/
theorem scrapeValue_eq (ms : MetricsStore) (fq : String) :
    ms.scrapeValue fq = if fq ∈ ms.registry then ms.sample fq else none :=
  lookup_renderList ms ms.registry fq

/-- Every name appearing in a scrape is registered. -/
theorem scrapeNames_subset (ms : MetricsStore) (fq : String)
    (h : fq ∈ ms.scrapeNames) : fq ∈ ms.registry := by
  simp only [MetricsStore.scrapeNames, MetricsStore.render, List.mem_map,
    List.mem_filterMap] at h
  obtain ⟨⟨n, v⟩, ⟨a, ha, hv⟩, rfl⟩ := h
  simp only [Option.map_eq_some'] at hv
  obtain ⟨w, -, hw⟩ := hv
  cases hw
  exact ha

/-- The K8s API event counter's sample. -/
theorem sample_k8s (ms : MetricsStore) :
    ms.sample k8sAPIEventCounterOpts.fqName =
      some (MetricValue.counter ms.K8sAPIEventCounter) := by
  simp [MetricsStore.sample]

/-- The proxy connect gauge's sample. -/
theorem sample_proxy (ms : MetricsStore) :
    ms.sample proxyConnectCountOpts.fqName =
      some (MetricValue.gauge ms.ProxyConnectCount) := by
  have d1 : proxyConnectCountOpts.fqName ≠ k8sAPIEventCounterOpts.fqName := by decide
  simp [MetricsStore.sample, d1]

/-- The injector sidecar counter's sample. -/
theorem sample_sidecar (ms : MetricsStore) :
    ms.sample injectorSidecarCountOpts.fqName =
      some (MetricValue.counter ms.InjectorSidecarCount) := by
  have d1 : injectorSidecarCountOpts.fqName ≠ k8sAPIEventCounterOpts.fqName := by decide
  have d2 : injectorSidecarCountOpts.fqName ≠ proxyConnectCountOpts.fqName := by decide
  simp [MetricsStore.sample, d1, d2]

/-- The injector request-time histogram's sample. -/
theorem sample_rqTime (ms : MetricsStore) :
    ms.sample injectorRqTimeOpts.fqName =
      some (MetricValue.histogram ms.InjectorRqTime) := by
  have d1 : injectorRqTimeOpts.fqName ≠ k8sAPIEventCounterOpts.fqName := by decide
  have d2 : injectorRqTimeOpts.fqName ≠ proxyConnectCountOpts.fqName := by decide
  have d3 : injectorRqTimeOpts.fqName ≠ injectorSidecarCountOpts.fqName := by decide
  simp [MetricsStore.sample, d1, d2, d3]

/-- Iterating the event-counter increment `N` times adds `N` to the counter
value and changes nothing else. -/
theorem incK8s_iterate (N : ℕ) (ms : MetricsStore) :
    MetricsStore.incK8sAPIEventCounter^[N] ms =
      { ms with K8sAPIEventCounter := ms.K8sAPIEventCounter + N } := by
  induction N with
  | zero => simp
  | succ n ih =>
    rw [Function.iterate_succ_apply', ih]
    simp only [MetricsStore.incK8sAPIEventCounter]
    congr 1
    push_cast
    ring

/-- Any name present in the registry, whose sample exists, appears in the
rendered scrape. -/
theorem mem_renderNames_of (ms : MetricsStore) (fq : String) (h1 : fq ∈ ms.registry)
    (v : MetricValue) (h2 : ms.sample fq = some v) :
    fq ∈ ms.render.map Prod.fst := by
  simp only [MetricsStore.render, List.mem_map, List.mem_filterMap]
  exact ⟨(fq, v), ⟨fq, h1, by simp [h2]⟩, rfl⟩

/-- If the K8s API event counter identity is already registered, `Start` is a
fatal duplicate-registration error on it. -/
theorem Start_error_of_k8s_mem (ms : MetricsStore)
    (h : k8sAPIEventCounterOpts.fqName ∈ ms.registry) :
    ms.Start = Except.error (RegError.alreadyRegistered k8sAPIEventCounterOpts.fqName) := by
  simp [MetricsStore.Start, mustRegister, h]

/-! ### Claims -/

/-- C1: for every constructed MetricsStore (empty registry), after `Start()`
a scrape produced by the handler returned from `Handler()` contains all four
fully-prefixed metric names `osm_k8s_api_event_count`,
`osm_proxy_connect_count`, `osm_injector_injector_sidecar_count` and
`osm_injector_injector_rq_time`. -/
theorem start_scrape_contains_all_four (ms : MetricsStore) (d : ℚ)
    (h : ms.registry = []) :
    ∃ s, ms.Start = Except.ok s ∧
      "osm_k8s_api_event_count" ∈ (s.serveScrape d).1.map Prod.fst ∧
      "osm_proxy_connect_count" ∈ (s.serveScrape d).1.map Prod.fst ∧
      "osm_injector_injector_sidecar_count" ∈ (s.serveScrape d).1.map Prod.fst ∧
      "osm_injector_injector_rq_time" ∈ (s.serveScrape d).1.map Prod.fst := by
  refine ⟨_, (Start_ok_iff ms _).mpr ⟨⟨by simp [h], by simp [h], by simp [h], by simp [h]⟩, rfl⟩,
    ?_, ?_, ?_, ?_⟩
  · exact mem_renderNames_of _ _ (by simp only [h]; decide) _ (sample_k8s _)
  · exact mem_renderNames_of _ _ (by simp only [h]; decide) _ (sample_proxy _)
  · exact mem_renderNames_of _ _ (by simp only [h]; decide) _ (sample_sidecar _)
  · exact mem_renderNames_of _ _ (by simp only [h]; decide) _ (sample_rqTime _)

/-- C1 witness: the default metrics store. -/
theorem start_scrape_contains_all_four_witness :
    defaultMetricsStore.registry = [] ∧
    (∃ s, defaultMetricsStore.Start = Except.ok s ∧
      "osm_k8s_api_event_count" ∈ (s.serveScrape 0).1.map Prod.fst ∧
      "osm_proxy_connect_count" ∈ (s.serveScrape 0).1.map Prod.fst ∧
      "osm_injector_injector_sidecar_count" ∈ (s.serveScrape 0).1.map Prod.fst ∧
      "osm_injector_injector_rq_time" ∈ (s.serveScrape 0).1.map Prod.fst) :=
  ⟨rfl, start_scrape_contains_all_four defaultMetricsStore 0 rfl⟩

/-- C2: calling `Start()` a second time without an intervening `Stop()`
surfaces a fatal duplicate-registration error (on the first identity
registered, the K8s API event counter); it does not silently succeed. -/
theorem start_twice_fatal (ms s : MetricsStore) (h : ms.Start = Except.ok s) :
    s.Start = Except.error (RegError.alreadyRegistered k8sAPIEventCounterOpts.fqName) := by
  obtain ⟨-, rfl⟩ := (Start_ok_iff ms s).mp h
  exact Start_error_of_k8s_mem _ (by simp)

/-- C2 witness: the default metrics store started twice. -/
theorem start_twice_fatal_witness :
    defaultMetricsStore.Start = Except.ok startedStore ∧
    startedStore.Start =
      Except.error (RegError.alreadyRegistered k8sAPIEventCounterOpts.fqName) :=
  ⟨rfl, start_twice_fatal defaultMetricsStore startedStore rfl⟩

/-- C3: after `Stop()`, a scrape via the handler returned from `Handler()`
contains none of the four metric names. -/
theorem stop_scrape_contains_none (ms s : MetricsStore) (d : ℚ)
    (h : ms.Stop = Except.ok s) :
    "osm_k8s_api_event_count" ∉ (s.serveScrape d).1.map Prod.fst ∧
    "osm_proxy_connect_count" ∉ (s.serveScrape d).1.map Prod.fst ∧
    "osm_injector_injector_sidecar_count" ∉ (s.serveScrape d).1.map Prod.fst ∧
    "osm_injector_injector_rq_time" ∉ (s.serveScrape d).1.map Prod.fst := by
  obtain ⟨n1, n2, n3, n4⟩ := not_mem_stop_registry ms s h
  exact ⟨fun hc => n1 (scrapeNames_subset s _ hc),
         fun hc => n2 (scrapeNames_subset s _ hc),
         fun hc => n3 (scrapeNames_subset s _ hc),
         fun hc => n4 (scrapeNames_subset s _ hc)⟩

/-- C3 witness: stopping the started default store. -/
theorem stop_scrape_contains_none_witness :
    startedStore.Stop = Except.ok defaultMetricsStore ∧
    ("osm_k8s_api_event_count" ∉ (defaultMetricsStore.serveScrape 0).1.map Prod.fst ∧
     "osm_proxy_connect_count" ∉ (defaultMetricsStore.serveScrape 0).1.map Prod.fst ∧
     "osm_injector_injector_sidecar_count" ∉ (defaultMetricsStore.serveScrape 0).1.map Prod.fst ∧
     "osm_injector_injector_rq_time" ∉ (defaultMetricsStore.serveScrape 0).1.map Prod.fst) :=
  ⟨rfl, stop_scrape_contains_none startedStore defaultMetricsStore 0 rfl⟩

/-- C4: serving a scrape mutates only the handler's own meta-counters
(request count and request duration); the four business-metric instruments
and the registry are unchanged, and the output is the rendered registry. -/
theorem handler_mutates_only_meta (ms : MetricsStore) (d : ℚ) :
    (ms.serveScrape d).1 = ms.render ∧
    (ms.serveScrape d).2.K8sAPIEventCounter = ms.K8sAPIEventCounter ∧
    (ms.serveScrape d).2.ProxyConnectCount = ms.ProxyConnectCount ∧
    (ms.serveScrape d).2.InjectorSidecarCount = ms.InjectorSidecarCount ∧
    (ms.serveScrape d).2.InjectorRqTime = ms.InjectorRqTime ∧
    (ms.serveScrape d).2.registry = ms.registry ∧
    (ms.serveScrape d).2.metaRequestCount = ms.metaRequestCount + 1 ∧
    (ms.serveScrape d).2.metaRequestDurationSum = ms.metaRequestDurationSum + d :=
  ⟨rfl, rfl, rfl, rfl, rfl, rfl, rfl, rfl⟩

/-- C5: if the K8s API event counter scrapes as value `v`, then after exactly
`N` increments it scrapes as `v + N`. -/
theorem k8s_counter_increases_by_N (ms : MetricsStore) (N : ℕ) (v : ℚ)
    (h : ms.scrapeValue k8sAPIEventCounterOpts.fqName = some (MetricValue.counter v)) :
    (MetricsStore.incK8sAPIEventCounter^[N] ms).scrapeValue k8sAPIEventCounterOpts.fqName =
      some (MetricValue.counter (v + N)) := by
  rw [scrapeValue_eq] at h
  by_cases hm : k8sAPIEventCounterOpts.fqName ∈ ms.registry
  · rw [if_pos hm, sample_k8s] at h
    obtain rfl := (MetricValue.counter.inj (Option.some.inj h)).symm
    rw [incK8s_iterate, scrapeValue_eq]
    simp [hm, sample_k8s]
  · rw [if_neg hm] at h
    exact absurd h (by simp)

/-- C5 witness: two increments on the started default store. -/
theorem k8s_counter_increases_by_N_witness :
    startedStore.scrapeValue k8sAPIEventCounterOpts.fqName =
      some (MetricValue.counter 0) ∧
    (MetricsStore.incK8sAPIEventCounter^[2] startedStore).scrapeValue
        k8sAPIEventCounterOpts.fqName = some (MetricValue.counter ((0 : ℚ) + (2 : ℕ))) :=
  ⟨rfl, k8s_counter_increases_by_N startedStore 2 0 rfl⟩

/-- C6: setting the proxy connect gauge to `V` and scraping yields exactly
`V`; setting it to `V1` then `V2` and scraping yields `V2` (last write wins,
not additive). -/
theorem proxy_gauge_last_write_wins (ms : MetricsStore) (V V1 V2 : ℚ)
    (h : proxyConnectCountOpts.fqName ∈ ms.registry) :
    (ms.setProxyConnectCount V).scrapeValue proxyConnectCountOpts.fqName =
      some (MetricValue.gauge V) ∧
    ((ms.setProxyConnectCount V1).setProxyConnectCount V2).scrapeValue
        proxyConnectCountOpts.fqName = some (MetricValue.gauge V2) := by
  constructor <;>
    · rw [scrapeValue_eq]
      simp [MetricsStore.setProxyConnectCount, h, sample_proxy]

/-- C6 witness: gauge sets on the started default store. -/
theorem proxy_gauge_last_write_wins_witness :
    proxyConnectCountOpts.fqName ∈ startedStore.registry ∧
    ((startedStore.setProxyConnectCount 5).scrapeValue proxyConnectCountOpts.fqName =
        some (MetricValue.gauge 5) ∧
     ((startedStore.setProxyConnectCount 7).setProxyConnectCount 9).scrapeValue
        proxyConnectCountOpts.fqName = some (MetricValue.gauge 9)) :=
  ⟨by decide, proxy_gauge_last_write_wins startedStore 5 7 9 (by decide)⟩

/-- C7: the declared bucket boundaries are exactly
0.1, 0.25, 0.5, 1, 2.5, 5, 10, 20, 40; the boundaries at or above 0.3 are
exactly 0.5, 1, 2.5, 5, 10, 20, 40; and recording one observation of 0.3 with
label success = "true" on a fresh histogram yields, on the next scrape, a
cumulative count of 1 for every declared boundary at or above 0.3 (0 for the
boundaries below) in the "true" partition and no count in the "false"
partition. -/
theorem injector_rq_time_observe (ms : MetricsStore) (b : ℚ)
    (hreg : injectorRqTimeOpts.fqName ∈ ms.registry)
    (hobs : ms.InjectorRqTime = [])
    (_hb : b ∈ injectorRqTimeBuckets) :
    injectorRqTimeBuckets = [1/10, 1/4, 1/2, 1, 5/2, 5, 10, 20, 40] ∧
    injectorRqTimeBuckets.filter (fun x => decide ((3 : ℚ)/10 ≤ x)) =
      [1/2, 1, 5/2, 5, 10, 20, 40] ∧
    (ms.observeInjectorRqTime "true" (3/10)).scrapeValue injectorRqTimeOpts.fqName =
      some (MetricValue.histogram [("true", 3/10)]) ∧
    histCumCount (ms.observeInjectorRqTime "true" (3/10)).InjectorRqTime "true" b =
      (if (3 : ℚ)/10 ≤ b then 1 else 0) ∧
    histCumCount (ms.observeInjectorRqTime "true" (3/10)).InjectorRqTime "false" b = 0 := by
  refine ⟨rfl, ?_, ?_, ?_, ?_⟩
  · simp only [injectorRqTimeBuckets, List.filter_cons, List.filter_nil,
      decide_eq_true_eq]
    norm_num
  · rw [scrapeValue_eq]
    simp [MetricsStore.observeInjectorRqTime, hreg, sample_rqTime, hobs]
  · by_cases h3 : (3 : ℚ)/10 ≤ b <;>
      simp [MetricsStore.observeInjectorRqTime, histCumCount, hobs, h3]
  · simp [MetricsStore.observeInjectorRqTime, histCumCount, hobs]

/-- C7 witness: bucket 0.5 on the started default store. -/
theorem injector_rq_time_observe_witness :
    injectorRqTimeOpts.fqName ∈ startedStore.registry ∧
    startedStore.InjectorRqTime = [] ∧
    ((1 : ℚ)/2) ∈ injectorRqTimeBuckets ∧
    (injectorRqTimeBuckets = [1/10, 1/4, 1/2, 1, 5/2, 5, 10, 20, 40] ∧
     injectorRqTimeBuckets.filter (fun x => decide ((3 : ℚ)/10 ≤ x)) =
       [1/2, 1, 5/2, 5, 10, 20, 40] ∧
     (startedStore.observeInjectorRqTime "true" (3/10)).scrapeValue
        injectorRqTimeOpts.fqName = some (MetricValue.histogram [("true", 3/10)]) ∧
     histCumCount (startedStore.observeInjectorRqTime "true" (3/10)).InjectorRqTime
        "true" (1/2) = (if (3 : ℚ)/10 ≤ (1/2 : ℚ) then 1 else 0) ∧
     histCumCount (startedStore.observeInjectorRqTime "true" (3/10)).InjectorRqTime
        "false" (1/2) = 0) :=
  ⟨by decide, rfl, by norm_num [injectorRqTimeBuckets],
   injector_rq_time_observe startedStore (1/2) (by decide) rfl
     (by norm_num [injectorRqTimeBuckets])⟩

/-- C8: `Stop()` never reports an error to its caller, including before any
`Start()` (arbitrary store, so possibly nothing registered) and when called
twice in a row: unregistration is best-effort. -/
theorem stop_never_reports_error (ms : MetricsStore) :
    ∃ s s2, ms.Stop = Except.ok s ∧ s.Stop = Except.ok s2 :=
  ⟨_, _, Stop_eq ms, Stop_eq _⟩

/-- C9: in the sequence `Start(); Stop(); Start()`, the second `Start()`
succeeds: `Stop()` removed all four identities, so the duplicate-registration
fatal branch is unreachable. -/
theorem start_stop_start_succeeds (ms s1 s2 : MetricsStore)
    (_h1 : ms.Start = Except.ok s1) (h2 : s1.Stop = Except.ok s2) :
    ∃ s3, s2.Start = Except.ok s3 := by
  obtain ⟨n1, n2, n3, n4⟩ := not_mem_stop_registry s1 s2 h2
  exact ⟨_, (Start_ok_iff s2 _).mpr ⟨⟨n1, n2, n3, n4⟩, rfl⟩⟩

/-- C9 witness: the default metrics store. -/
theorem start_stop_start_succeeds_witness :
    defaultMetricsStore.Start = Except.ok startedStore ∧
    startedStore.Stop = Except.ok defaultMetricsStore ∧
    (∃ s3, defaultMetricsStore.Start = Except.ok s3) :=
  ⟨rfl, rfl,
   start_stop_start_succeeds defaultMetricsStore startedStore defaultMetricsStore rfl rfl⟩

/-- C10: any sequence of `Start()`/`Stop()` calls that does not abort changes
only registry membership: the values held inside the four instruments are
unchanged, so metric values survive a `Stop()`/`Start()` cycle. -/
theorem lifecycle_preserves_instrument_values (ops : List LifecycleOp)
    (ms s : MetricsStore) (h : runOps ops ms = Except.ok s) :
    s.K8sAPIEventCounter = ms.K8sAPIEventCounter ∧
    s.ProxyConnectCount = ms.ProxyConnectCount ∧
    s.InjectorSidecarCount = ms.InjectorSidecarCount ∧
    s.InjectorRqTime = ms.InjectorRqTime := by
  induction ops generalizing ms with
  | nil =>
    simp only [runOps] at h
    obtain rfl := Except.ok.inj h
    exact ⟨rfl, rfl, rfl, rfl⟩
  | cons op t ih =>
    cases op with
    | start =>
      cases hS : ms.Start with
      | error e =>
        simp only [runOps, hS] at h
        exact Except.noConfusion h
      | ok m1 =>
        simp only [runOps, hS] at h
        obtain ⟨e1, e2, e3, e4⟩ := Start_preserves_values ms m1 hS
        obtain ⟨f1, f2, f3, f4⟩ := ih m1 h
        exact ⟨f1.trans e1, f2.trans e2, f3.trans e3, f4.trans e4⟩
    | stop =>
      have hS := Stop_eq ms
      simp only [runOps, hS] at h
      obtain ⟨e1, e2, e3, e4⟩ := Stop_preserves_values ms _ hS
      obtain ⟨f1, f2, f3, f4⟩ := ih _ h
      exact ⟨f1.trans e1, f2.trans e2, f3.trans e3, f4.trans e4⟩

/-- C10 witness: start, stop, start on the default metrics store. -/
theorem lifecycle_preserves_instrument_values_witness :
    runOps [LifecycleOp.start, LifecycleOp.stop, LifecycleOp.start] defaultMetricsStore =
      Except.ok startedStore ∧
    (startedStore.K8sAPIEventCounter = defaultMetricsStore.K8sAPIEventCounter ∧
     startedStore.ProxyConnectCount = defaultMetricsStore.ProxyConnectCount ∧
     startedStore.InjectorSidecarCount = defaultMetricsStore.InjectorSidecarCount ∧
     startedStore.InjectorRqTime = defaultMetricsStore.InjectorRqTime) :=
  ⟨rfl,
   lifecycle_preserves_instrument_values
     [LifecycleOp.start, LifecycleOp.stop, LifecycleOp.start]
     defaultMetricsStore startedStore rfl⟩

end Metricsstore
